import Mathlib

/-!
# Verification of `register-endpoint.ts` (skype-http)

Shallow embedding of `src/lib/helpers/register-endpoint.ts`: the endpoint
registration protocol (`registerEndpoint`) and the `Set-Registrationtoken`
header parser (`readSetRegistrationTokenHeader`), together with models of the
collaborators the control flow depends on:

* `utils.parseHeaderParams` (the header-parameter codec) is repository code
  that is not part of the sources at hand; it is modelled from the spec.
* JavaScript's `parseInt(s, 10)` and `new Date(ms)` are language builtins,
  embedded from their standard semantics (`parseIntBase10`; an invalid date,
  i.e. a NaN millisecond count, is modelled as `none`).
* Node's `url.parse(...).host` is an external library call; the protocol is
  parametrized by an abstract `parseUriHost : String → Option String`.
* The HTTP transport `io.post` is external; the protocol is parametrized by
  the sequence of responses it yields, one per attempt (`Nat → Response`).
  Header lookups `res.headers["location"]` and
  `res.headers["set-registrationtoken"]` are modelled as the two optional
  fields of `Response` that the control flow reads.

Machine numbers: HTTP status codes are `Nat`; the `expires` timestamp and
millisecond instants are `Int` (JS numbers are exact on these magnitudes,
and no overflow is reachable here).
-/

namespace SkypeHttp

/-- Whitespace trim on a character list (JS `String.prototype.trim` on the
small strings involved here: strips leading and trailing whitespace). -/
def trimChars (cs : List Char) : List Char :=
  ((cs.dropWhile Char.isWhitespace).reverse.dropWhile Char.isWhitespace).reverse

/-- Split a character list on every occurrence of `sep` (like
`String.prototype.split(sep)` for a one-character separator). -/
def splitOnChar (sep : Char) : List Char → List (List Char)
  | [] => [[]]
  | c :: cs =>
    if c = sep then [] :: splitOnChar sep cs
    else
      match splitOnChar sep cs with
      | [] => [[c]]
      | s :: rest => (c :: s) :: rest

/-- Split a character list at the first `'='` into (before, after);
`none` when the list has no `'='`. -/
def splitFirstEq : List Char → Option (List Char × List Char)
  | [] => none
  | c :: cs =>
    if c = '=' then some ([], cs)
    else (splitFirstEq cs).map (fun kv => (c :: kv.1, kv.2))

/-- Modelled from the spec: `utils.parseHeaderParams` (HeaderParamCodec.parse)
is repository code outside the sources at hand. Per the spec it splits the
header on `";"`, trims surrounding whitespace from each segment, splits each
segment on the first `"="` into key/value (tolerating whitespace around the
`"="`), drops segments without an `"="`, returns an empty result for an empty
input, and on duplicate keys the later occurrence wins (see `getParam`). -/
def parseHeaderParams (header : String) : List (String × String) :=
  (splitOnChar ';' header.data).filterMap fun seg =>
    match splitFirstEq (trimChars seg) with
    | none => none
    | some kv => some (String.mk (trimChars kv.1), String.mk (trimChars kv.2))

/-- Lookup in parsed header parameters; the last occurrence of a duplicate
key wins (`Map` overwrite semantics of the original code). -/
def getParam (params : List (String × String)) (key : String) : Option String :=
  ((params.filter fun p => p.1 = key).getLast?).map fun p => p.2

/-- Longest run of decimal digits at the front of a character list. -/
def takeDigits : List Char → List Char
  | [] => []
  | c :: cs => if c.isDigit then c :: takeDigits cs else []

/-- Numeric value of a list of decimal digits, most significant first. -/
def digitsToNat (ds : List Char) : Nat :=
  ds.foldl (fun acc c => 10 * acc + (c.toNat - Char.toNat '0')) 0

/-- JavaScript's `parseInt(s, 10)`: skip leading whitespace, read an optional
sign, then the longest prefix of decimal digits; `none` models `NaN` (no
digits found). Trailing non-digit characters are ignored (lenient parse). -/
def parseIntBase10 (s : String) : Option Int :=
  let cs := s.data.dropWhile Char.isWhitespace
  let signAndRest : Int × List Char :=
    match cs with
    | '-' :: rest => (-1, rest)
    | '+' :: rest => (1, rest)
    | _ => (1, cs)
  let ds := takeDigits signAndRest.2
  if ds.isEmpty then none
  else some (signAndRest.1 * (digitsToNat ds : Int))

/-- `RegistrationToken` of `interfaces/api/context`, as constructed by
`readSetRegistrationTokenHeader`. `expirationDate` is the millisecond
instant of the JS `Date`; `none` models an Invalid Date (NaN input). -/
structure RegistrationToken where
  value : String
  expirationDate : Option Int
  endpointId : String
  raw : String
  host : String
  deriving DecidableEq, Repr

/-- Payload of the `InvalidSetRegistrationTokenHeader` incident thrown by
`readSetRegistrationTokenHeader`: the raw header and its parse. -/
structure InvalidSetRegistrationTokenHeader where
  header : String
  parsed : List (String × String)
  deriving DecidableEq, Repr

/-- `readSetRegistrationTokenHeader(hostname, header)` from
`register-endpoint.ts`: parse the header parameters, require the keys
`registrationToken`, `expires` and `endpointId`, else throw
`InvalidSetRegistrationTokenHeader`; on success build the token with
`expirationDate = new Date(1000 * parseInt(expiresString, 10))`. -/
def readSetRegistrationTokenHeader (hostname : String) (header : String) :
    Except InvalidSetRegistrationTokenHeader RegistrationToken :=
  let parsedHeader := parseHeaderParams header
  let expiresString := getParam parsedHeader "expires"
  let registrationTokenValue := getParam parsedHeader "registrationToken"
  let endpointId := getParam parsedHeader "endpointId"
  match registrationTokenValue, expiresString, endpointId with
  | some v, some e, some eid =>
    .ok { value := v
          expirationDate := (parseIntBase10 e).map fun n => 1000 * n
          endpointId := eid
          raw := header
          host := hostname }
  | _, _, _ => .error { header := header, parsed := parsedHeader }

/-! ## The registration protocol (`registerEndpoint`) -/

/-- One `io.PostOptions` request of the loop body, identified by the hostname
it targets (the request URI is `messagesUri.endpoints(hostname)`). The
remaining request fields (`LockAndKey`, `ClientInfo`, `Authentication`,
`BehaviorOverride` headers, cookies, body) are built from external
collaborators (wall clock, HMAC, constants, the Skype token) and are never
read back by the control flow of `registerEndpoint`, so they are opaque
here.  -/
structure Request where
  hostname : String
  deriving DecidableEq, Repr

/-- One `io.Response`, restricted to the fields `registerEndpoint` reads: the
status code and the (case-insensitively looked-up) `Location` and
`Set-Registrationtoken` headers, each possibly absent. -/
structure Response where
  statusCode : Nat
  location : Option String
  setRegistrationToken : Option String
  deriving DecidableEq, Repr

/-- One entry of the `tries` array: a `{req, res}` pair. -/
structure Attempt where
  req : Request
  res : Response
  deriving DecidableEq, Repr

/-- The `expectedStatusCode` set `new Set([201, 301])`. -/
def expectedStatusCodes : List Nat := [201, 301]

/-- The cause wrapped by the composite `EndpointRegistrationError` incident,
one constructor per throw site that wraps a cause:
`Incident("LoginRateLimitExceeded", {tries})`,
`UnexpectedHttpStatusError.create(res, expectedStatusCode, req)`,
`MissingHeaderError.create(res, name, req)`, and
`Incident("EndpointRedirectionsLimit", {tries})`. Note which payloads carry
the `tries` history and which carry only the current `res`/`req`. -/
inductive RegCause where
  | loginRateLimitExceeded (tries : List Attempt)
  | unexpectedHttpStatus (res : Response) (expected : List Nat) (req : Request)
  | missingHeader (res : Response) (headerName : String) (req : Request)
  | endpointRedirectionsLimit (tries : List Attempt)
  deriving DecidableEq, Repr

/-- An error thrown by `registerEndpoint`: either the composite
`Incident(cause, "EndpointRegistrationError", "Unable to register endpoint")`,
or the bare `Incident("ParseError", "Expected location to define host")`
thrown when the `Location` URI has no host, or the bare
`InvalidSetRegistrationTokenHeader` incident propagated out of
`readSetRegistrationTokenHeader`. -/
inductive RegError where
  | endpointRegistrationError (cause : RegCause)
  | parseError (message : String)
  | invalidSetRegistrationTokenHeader (err : InvalidSetRegistrationTokenHeader)
  deriving DecidableEq, Repr

/-- Is this error the composite `EndpointRegistrationError` wrapper? -/
def RegError.isComposite : RegError → Bool
  | .endpointRegistrationError _ => true
  | _ => false

/-- The `tries` history attached to an error, when its payload carries one. -/
def RegError.triesOf : RegError → Option (List Attempt)
  | .endpointRegistrationError (.loginRateLimitExceeded tries) => some tries
  | .endpointRegistrationError (.endpointRedirectionsLimit tries) => some tries
  | _ => none

/-- The body of the `for (tryCount = 0; tryCount <= retries; tryCount++)`
loop of `registerEndpoint`, with `fuel` the number of remaining iterations
(`retries + 1 - tryCount`), `attemptIdx` the index of the next transport
response, `hostname` the current `messagesHostname` (reassigned on
redirects), and `tries` the attempt history accumulated so far. Besides the
source's result (`.1`), it returns the final `tries` array (`.2`) so that the
number of attempts performed is observable on every path. Falling out of the
loop (`fuel = 0`) throws `EndpointRedirectionsLimit`. -/
def registerEndpointGo (parseUriHost : String → Option String)
    (responses : Nat → Response) :
    Nat → String → Nat → List Attempt →
    Except RegError RegistrationToken × List Attempt
  | _, _, 0, tries =>
    (.error (.endpointRegistrationError (.endpointRedirectionsLimit tries)), tries)
  | attemptIdx, hostname, fuel + 1, tries =>
    let req : Request := { hostname := hostname }
    let res : Response := responses attemptIdx
    let tries := tries ++ [{ req := req, res := res }]
    if res.statusCode = 429 then
      (.error (.endpointRegistrationError (.loginRateLimitExceeded tries)), tries)
    else if res.statusCode ∉ expectedStatusCodes then
      (.error (.endpointRegistrationError
        (.unexpectedHttpStatus res expectedStatusCodes req)), tries)
    else
      match res.location with
      | none =>
        (.error (.endpointRegistrationError (.missingHeader res "Location" req)), tries)
      | some locationHeader =>
        match parseUriHost locationHeader with
        | none => (.error (.parseError "Expected location to define host"), tries)
        | some host =>
          if host ≠ hostname then
            registerEndpointGo parseUriHost responses (attemptIdx + 1) host fuel tries
          else
            match res.setRegistrationToken with
            | none =>
              (.error (.endpointRegistrationError
                (.missingHeader res "Set-Registrationtoken" req)), tries)
            | some registrationTokenHeader =>
              match readSetRegistrationTokenHeader hostname registrationTokenHeader with
              | .ok token => (.ok token, tries)
              | .error e => (.error (.invalidSetRegistrationTokenHeader e), tries)

/-- `registerEndpoint(io, cookies, skypeToken, messagesHostname, retries)`:
run the loop for `retries + 1` iterations starting from the requested
hostname with an empty attempt history, returning the token or the thrown
error. -/
def registerEndpoint (parseUriHost : String → Option String)
    (responses : Nat → Response) (messagesHostname : String) (retries : Nat) :
    Except RegError RegistrationToken :=
  (registerEndpointGo parseUriHost responses 0 messagesHostname (retries + 1) []).1

/-- The final contents of the `tries` array of a `registerEndpoint` run: the
ordered history of all attempts performed. -/
def registerEndpointTries (parseUriHost : String → Option String)
    (responses : Nat → Response) (messagesHostname : String) (retries : Nat) :
    List Attempt :=
  (registerEndpointGo parseUriHost responses 0 messagesHostname (retries + 1) []).2

/-- An attempt that takes the redirect branch of the loop: expected status,
a `Location` header whose URI has a host, and that host differs from the
hostname the attempt was sent to. -/
def redirectsAttempt (parseUriHost : String → Option String) (a : Attempt) : Bool :=
  decide (a.res.statusCode ∈ expectedStatusCodes) &&
    match a.res.location with
    | none => false
    | some loc =>
      match parseUriHost loc with
      | none => false
      | some host => decide (host ≠ a.req.hostname)

/-! ## Concrete fixtures

A concrete stand-in for Node's `url.parse(...).host` over the fixture
location URIs, and the concrete responses used by the witnesses and
counterexamples. -/

def demoParseUriHost : String → Option String
  | "https://hostA/v1" => some "hostA"
  | "https://hostB/v1" => some "hostB"
  | _ => none

/-- A 201 success at `hostA` with a matching `Location` and a valid token. -/
def res201A : Response :=
  { statusCode := 201
    location := some "https://hostA/v1"
    setRegistrationToken := some "registrationToken=abc; expires=1000; endpointId={e1}" }

/-- A 301 redirect towards `hostB`. -/
def res301B : Response :=
  { statusCode := 301, location := some "https://hostB/v1", setRegistrationToken := none }

/-- A 201 success at `hostB` with a matching `Location` and a valid token. -/
def res201B : Response :=
  { statusCode := 201
    location := some "https://hostB/v1"
    setRegistrationToken := some "registrationToken=abc; expires=1000; endpointId={e1}" }

/-- A rate-limit response. -/
def res429demo : Response :=
  { statusCode := 429, location := none, setRegistrationToken := none }

/-- A server-error response. -/
def res500demo : Response :=
  { statusCode := 500, location := none, setRegistrationToken := none }

/-- A 301 whose `Location` URI has no host component. -/
def resNoHost : Response :=
  { statusCode := 301, location := some "relative/path", setRegistrationToken := none }

/-- A 201 with no `Location` header at all. -/
def resNoLocation : Response :=
  { statusCode := 201, location := none, setRegistrationToken := none }

/-- A 201 at `hostA` with a matching `Location` but no token header. -/
def resNoToken : Response :=
  { statusCode := 201, location := some "https://hostA/v1", setRegistrationToken := none }

/-- Transport fixture: a 301 redirect to `hostB`, then 201 success at `hostB`. -/
def respSeqRedirect (i : Nat) : Response := if i = 0 then res301B else res201B

/-- Transport fixture: a 301 redirect to `hostB`, then a 500 error. -/
def respSeqRedirect500 (i : Nat) : Response := if i = 0 then res301B else res500demo

/-! ## Helper lemmas about the loop -/

/-- The loop performs at most `fuel` further attempts: the final `tries`
array grows by at most `fuel` entries. -/
theorem registerEndpointGo_length_le (p : String → Option String)
    (responses : Nat → Response) (fuel : Nat) :
    ∀ (i : Nat) (hostname : String) (tries : List Attempt),
      (registerEndpointGo p responses i hostname fuel tries).2.length ≤
        tries.length + fuel := by
  induction fuel with
  | zero => intro i hostname tries; simp [registerEndpointGo]
  | succ n ih =>
    intro i hostname tries
    simp only [registerEndpointGo]
    repeat' split
    all_goals try simp only [List.length_append, List.length_cons, List.length_nil]
    all_goals try omega
    calc (registerEndpointGo p responses (i + 1) _ n (tries ++ [_])).2.length
        ≤ (tries ++ [_]).length + n := ih _ _ _
      _ ≤ tries.length + (n + 1) := by
          simp only [List.length_append, List.length_cons, List.length_nil]; omega

/-- The loop only ever appends to the `tries` array. -/
theorem registerEndpointGo_trace_extends (p : String → Option String)
    (responses : Nat → Response) (fuel : Nat) :
    ∀ (i : Nat) (hostname : String) (tries : List Attempt), ∃ rest,
      (registerEndpointGo p responses i hostname fuel tries).2 = tries ++ rest := by
  induction fuel with
  | zero =>
    intro i hostname tries
    exact ⟨[], by simp [registerEndpointGo]⟩
  | succ n ih =>
    intro i hostname tries
    simp only [registerEndpointGo]
    repeat' split
    all_goals try exact ⟨_, rfl⟩
    all_goals
      obtain ⟨rest, hr⟩ := ih (i + 1) _ (tries ++ [_])
      rw [hr]
      exact ⟨_, by rw [List.append_assoc]⟩

/-- The attempt sent in the current iteration is recorded in the final
`tries` array. -/
theorem registerEndpointGo_first_mem (p : String → Option String)
    (responses : Nat → Response) (n i : Nat) (hostname : String)
    (tries : List Attempt) :
    ({ req := { hostname := hostname }, res := responses i } : Attempt) ∈
      (registerEndpointGo p responses i hostname (n + 1) tries).2 := by
  simp only [registerEndpointGo]
  repeat' split
  all_goals try simp
  all_goals
    obtain ⟨rest, hr⟩ :=
      registerEndpointGo_trace_extends p responses n (i + 1) _ (tries ++ [_])
    rw [hr]
    simp

/-- If every recorded attempt takes the redirect branch, the loop runs all
its iterations and falls out as `EndpointRedirectionsLimit`, attaching the
full history of exactly `fuel` further attempts. -/
theorem registerEndpointGo_all_redirect (p : String → Option String)
    (responses : Nat → Response) (fuel : Nat) :
    ∀ (i : Nat) (hostname : String) (tries : List Attempt),
      (∀ a ∈ (registerEndpointGo p responses i hostname fuel tries).2,
          redirectsAttempt p a = true) →
      (registerEndpointGo p responses i hostname fuel tries).1 =
        .error (.endpointRegistrationError (.endpointRedirectionsLimit
          (registerEndpointGo p responses i hostname fuel tries).2)) ∧
      (registerEndpointGo p responses i hostname fuel tries).2.length =
        tries.length + fuel := by
  induction fuel with
  | zero =>
    intro i hostname tries _
    exact ⟨by simp [registerEndpointGo], by simp [registerEndpointGo]⟩
  | succ n ih =>
    intro i hostname tries H
    have ha := H _ (registerEndpointGo_first_mem p responses n i hostname tries)
    by_cases h429 : (responses i).statusCode = 429
    · exfalso; simp [redirectsAttempt, expectedStatusCodes, h429] at ha
    · by_cases hmem : (responses i).statusCode ∈ expectedStatusCodes
      case neg => exfalso; simp [redirectsAttempt, hmem] at ha
      cases hloc : (responses i).location with
        | none => exfalso; simp [redirectsAttempt, hloc] at ha
        | some loc =>
          cases hhost : p loc with
          | none => exfalso; simp [redirectsAttempt, hloc, hhost] at ha
          | some host =>
            by_cases hne : host = hostname
            · exfalso; simp [redirectsAttempt, hloc, hhost, hne] at ha
            · have hgo : registerEndpointGo p responses i hostname (n + 1) tries =
                  registerEndpointGo p responses (i + 1) host n
                    (tries ++ [{ req := { hostname := hostname }, res := responses i }]) := by
                simp [registerEndpointGo, h429, hmem, hloc, hhost, hne]
              rw [hgo] at H ⊢
              have hrec := ih (i + 1) host _ H
              refine ⟨hrec.1, ?_⟩
              rw [hrec.2]
              simp only [List.length_append, List.length_cons, List.length_nil]
              omega

/-- An `EndpointRedirectionsLimit` error always attaches exactly the final
`tries` array, whose length shows all iterations were consumed. -/
theorem registerEndpointGo_exhausted_full (p : String → Option String)
    (responses : Nat → Response) (fuel : Nat) :
    ∀ (i : Nat) (hostname : String) (tries t : List Attempt),
      (registerEndpointGo p responses i hostname fuel tries).1 =
        .error (.endpointRegistrationError (.endpointRedirectionsLimit t)) →
      t = (registerEndpointGo p responses i hostname fuel tries).2 ∧
      t.length = tries.length + fuel := by
  induction fuel with
  | zero =>
    intro i hostname tries t h
    simp only [registerEndpointGo] at h ⊢
    simp only [Except.error.injEq, RegError.endpointRegistrationError.injEq,
      RegCause.endpointRedirectionsLimit.injEq] at h
    subst h
    exact ⟨rfl, by omega⟩
  | succ n ih =>
    intro i hostname tries t h
    by_cases h429 : (responses i).statusCode = 429
    · have hgo : registerEndpointGo p responses i hostname (n + 1) tries =
          (.error (.endpointRegistrationError (.loginRateLimitExceeded
            (tries ++ [{ req := { hostname := hostname }, res := responses i }]))),
            tries ++ [{ req := { hostname := hostname }, res := responses i }]) := by
        simp [registerEndpointGo, h429]
      rw [hgo] at h
      simp at h
    · by_cases hmem : (responses i).statusCode ∈ expectedStatusCodes
      case neg =>
        have hgo : registerEndpointGo p responses i hostname (n + 1) tries =
            (.error (.endpointRegistrationError (.unexpectedHttpStatus (responses i)
              expectedStatusCodes { hostname := hostname })),
              tries ++ [{ req := { hostname := hostname }, res := responses i }]) := by
          simp [registerEndpointGo, h429, hmem]
        rw [hgo] at h
        simp at h
      cases hloc : (responses i).location with
      | none =>
        have hgo : registerEndpointGo p responses i hostname (n + 1) tries =
            (.error (.endpointRegistrationError (.missingHeader (responses i)
              "Location" { hostname := hostname })),
              tries ++ [{ req := { hostname := hostname }, res := responses i }]) := by
          simp [registerEndpointGo, h429, hmem, hloc]
        rw [hgo] at h
        simp at h
      | some loc =>
        cases hhost : p loc with
        | none =>
          have hgo : registerEndpointGo p responses i hostname (n + 1) tries =
              (.error (.parseError "Expected location to define host"),
                tries ++ [{ req := { hostname := hostname }, res := responses i }]) := by
            simp [registerEndpointGo, h429, hmem, hloc, hhost]
          rw [hgo] at h
          simp at h
        | some host =>
          by_cases hne : host = hostname
          case neg =>
            have hgo : registerEndpointGo p responses i hostname (n + 1) tries =
                registerEndpointGo p responses (i + 1) host n
                  (tries ++ [{ req := { hostname := hostname }, res := responses i }]) := by
              simp [registerEndpointGo, h429, hmem, hloc, hhost, hne]
            rw [hgo] at h ⊢
            have hrec := ih _ _ _ _ h
            refine ⟨hrec.1, ?_⟩
            rw [hrec.2]
            simp only [List.length_append, List.length_cons, List.length_nil]
            omega
          cases hreg : (responses i).setRegistrationToken with
          | none =>
            have hgo : registerEndpointGo p responses i hostname (n + 1) tries =
                (.error (.endpointRegistrationError (.missingHeader (responses i)
                  "Set-Registrationtoken" { hostname := hostname })),
                  tries ++ [{ req := { hostname := hostname }, res := responses i }]) := by
              simp [registerEndpointGo, h429, hmem, hloc, hhost, hne, hreg]
            rw [hgo] at h
            simp at h
          | some s =>
            cases hread : readSetRegistrationTokenHeader hostname s with
            | ok token =>
              have hgo : registerEndpointGo p responses i hostname (n + 1) tries =
                  (.ok token,
                    tries ++ [{ req := { hostname := hostname }, res := responses i }]) := by
                simp [registerEndpointGo, h429, hmem, hloc, hhost, hne, hreg, hread]
              rw [hgo] at h
              simp at h
            | error e =>
              have hgo : registerEndpointGo p responses i hostname (n + 1) tries =
                  (.error (.invalidSetRegistrationTokenHeader e),
                    tries ++ [{ req := { hostname := hostname }, res := responses i }]) := by
                simp [registerEndpointGo, h429, hmem, hloc, hhost, hne, hreg, hread]
              rw [hgo] at h
              simp at h

/-- Characterization of a successful `Set-Registrationtoken` parse: the
three keys are present and every token field is determined by them. -/
theorem readSetRegistrationTokenHeader_ok_iff (hostname header : String)
    (t : RegistrationToken) :
    readSetRegistrationTokenHeader hostname header = .ok t ↔
    ∃ v e eid,
      getParam (parseHeaderParams header) "registrationToken" = some v ∧
      getParam (parseHeaderParams header) "expires" = some e ∧
      getParam (parseHeaderParams header) "endpointId" = some eid ∧
      t = { value := v
            expirationDate := (parseIntBase10 e).map fun n => 1000 * n
            endpointId := eid
            raw := header
            host := hostname } := by
  simp only [readSetRegistrationTokenHeader]
  cases hv : getParam (parseHeaderParams header) "registrationToken" with
  | none => simp [hv]
  | some v =>
    cases he : getParam (parseHeaderParams header) "expires" with
    | none => simp [hv, he]
    | some e =>
      cases heid : getParam (parseHeaderParams header) "endpointId" with
      | none => simp [hv, he, heid]
      | some eid =>
        simp only [Except.ok.injEq]
        constructor
        · intro h
          exact ⟨v, e, eid, rfl, rfl, rfl, h.symm⟩
        · rintro ⟨v2, e2, eid2, hv2, he2, heid2, ht⟩
          rw [Option.some.injEq] at hv2 he2 heid2
          subst hv2
          subst he2
          subst heid2
          exact ht.symm

/-- The host of a parsed registration token is the hostname argument. -/
theorem readSetRegistrationTokenHeader_ok_host (hostname header : String)
    (t : RegistrationToken)
    (h : readSetRegistrationTokenHeader hostname header = .ok t) :
    t.host = hostname := by
  obtain ⟨v, e, eid, -, -, -, ht⟩ :=
    (readSetRegistrationTokenHeader_ok_iff hostname header t).mp h
  rw [ht]

/-- On success, the hostname recorded in the last attempt of the `tries`
array is the host of the returned token. -/
theorem registerEndpointGo_ok_host (p : String → Option String)
    (responses : Nat → Response) (fuel : Nat) :
    ∀ (i : Nat) (hostname : String) (tries : List Attempt) (t : RegistrationToken),
      (registerEndpointGo p responses i hostname fuel tries).1 = .ok t →
      ((registerEndpointGo p responses i hostname fuel tries).2.getLast?).map
          (fun a => a.req.hostname) = some t.host := by
  induction fuel with
  | zero => intro i hostname tries t h; simp [registerEndpointGo] at h
  | succ n ih =>
    intro i hostname tries t h
    by_cases h429 : (responses i).statusCode = 429
    · have hgo : registerEndpointGo p responses i hostname (n + 1) tries =
          (.error (.endpointRegistrationError (.loginRateLimitExceeded
            (tries ++ [{ req := { hostname := hostname }, res := responses i }]))),
            tries ++ [{ req := { hostname := hostname }, res := responses i }]) := by
        simp [registerEndpointGo, h429]
      rw [hgo] at h
      simp at h
    · by_cases hmem : (responses i).statusCode ∈ expectedStatusCodes
      case neg =>
        have hgo : registerEndpointGo p responses i hostname (n + 1) tries =
            (.error (.endpointRegistrationError (.unexpectedHttpStatus (responses i)
              expectedStatusCodes { hostname := hostname })),
              tries ++ [{ req := { hostname := hostname }, res := responses i }]) := by
          simp [registerEndpointGo, h429, hmem]
        rw [hgo] at h
        simp at h
      cases hloc : (responses i).location with
      | none =>
        have hgo : registerEndpointGo p responses i hostname (n + 1) tries =
            (.error (.endpointRegistrationError (.missingHeader (responses i)
              "Location" { hostname := hostname })),
              tries ++ [{ req := { hostname := hostname }, res := responses i }]) := by
          simp [registerEndpointGo, h429, hmem, hloc]
        rw [hgo] at h
        simp at h
      | some loc =>
        cases hhost : p loc with
        | none =>
          have hgo : registerEndpointGo p responses i hostname (n + 1) tries =
              (.error (.parseError "Expected location to define host"),
                tries ++ [{ req := { hostname := hostname }, res := responses i }]) := by
            simp [registerEndpointGo, h429, hmem, hloc, hhost]
          rw [hgo] at h
          simp at h
        | some host =>
          by_cases hne : host = hostname
          case neg =>
            have hgo : registerEndpointGo p responses i hostname (n + 1) tries =
                registerEndpointGo p responses (i + 1) host n
                  (tries ++ [{ req := { hostname := hostname }, res := responses i }]) := by
              simp [registerEndpointGo, h429, hmem, hloc, hhost, hne]
            rw [hgo] at h ⊢
            exact ih _ _ _ _ h
          cases hreg : (responses i).setRegistrationToken with
          | none =>
            have hgo : registerEndpointGo p responses i hostname (n + 1) tries =
                (.error (.endpointRegistrationError (.missingHeader (responses i)
                  "Set-Registrationtoken" { hostname := hostname })),
                  tries ++ [{ req := { hostname := hostname }, res := responses i }]) := by
              simp [registerEndpointGo, h429, hmem, hloc, hhost, hne, hreg]
            rw [hgo] at h
            simp at h
          | some s =>
            cases hread : readSetRegistrationTokenHeader hostname s with
            | ok token =>
              have hgo : registerEndpointGo p responses i hostname (n + 1) tries =
                  (.ok token,
                    tries ++ [{ req := { hostname := hostname }, res := responses i }]) := by
                simp [registerEndpointGo, h429, hmem, hloc, hhost, hne, hreg, hread]
              rw [hgo] at h ⊢
              simp only [Except.ok.injEq] at h
              subst h
              rw [readSetRegistrationTokenHeader_ok_host _ _ _ hread]
              simp [List.getLast?_concat]
            | error e =>
              have hgo : registerEndpointGo p responses i hostname (n + 1) tries =
                  (.error (.invalidSetRegistrationTokenHeader e),
                    tries ++ [{ req := { hostname := hostname }, res := responses i }]) := by
                simp [registerEndpointGo, h429, hmem, hloc, hhost, hne, hreg, hread]
              rw [hgo] at h
              simp at h

/-! ## Claims -/

/-- C1: `readSetRegistrationTokenHeader` fails with
`InvalidSetRegistrationTokenHeader` exactly when at least one of the keys
`registrationToken`, `expires`, `endpointId` is absent after header-param
parsing; otherwise the returned token's value and endpointId come from the
header, its expiration instant is `1000 * parseInt(expires, 10)`
milliseconds after the epoch, its raw field is the header string, and its
host is the hostname argument. -/
theorem claim_C1 (hostname header : String) :
    ((∃ err, readSetRegistrationTokenHeader hostname header = .error err) ↔
      (getParam (parseHeaderParams header) "registrationToken" = none ∨
       getParam (parseHeaderParams header) "expires" = none ∨
       getParam (parseHeaderParams header) "endpointId" = none)) ∧
    ∀ v e eid,
      getParam (parseHeaderParams header) "registrationToken" = some v →
      getParam (parseHeaderParams header) "expires" = some e →
      getParam (parseHeaderParams header) "endpointId" = some eid →
      readSetRegistrationTokenHeader hostname header =
        .ok { value := v
              expirationDate := (parseIntBase10 e).map fun n => 1000 * n
              endpointId := eid
              raw := header
              host := hostname } := by
  constructor
  · cases hv : getParam (parseHeaderParams header) "registrationToken" <;>
      cases he : getParam (parseHeaderParams header) "expires" <;>
        cases heid : getParam (parseHeaderParams header) "endpointId" <;>
          simp [readSetRegistrationTokenHeader, hv, he, heid]
  · intro v e eid hv he heid
    simp [readSetRegistrationTokenHeader, hv, he, heid]

/-- C1 witness: Scenario A's header
`registrationToken=abc; expires=1000; endpointId={e1}` parsed for
`requestedHost` yields the token with value `abc`, endpointId `{e1}`,
expiration instant epoch + 1,000,000 ms and host `requestedHost`. -/
theorem claim_C1_witness :
    readSetRegistrationTokenHeader "requestedHost"
        "registrationToken=abc; expires=1000; endpointId={e1}" =
      .ok { value := "abc"
            expirationDate := some 1000000
            endpointId := "{e1}"
            raw := "registrationToken=abc; expires=1000; endpointId={e1}"
            host := "requestedHost" } := by
  have h := (claim_C1 "requestedHost"
    "registrationToken=abc; expires=1000; endpointId={e1}").2 "abc" "1000" "{e1}"
    (by rfl) (by rfl) (by rfl)
  simpa using h

/-- C2: a first response with status 429 makes `registerEndpoint` fail
immediately as the rate-limit error (`LoginRateLimitExceeded`, never
`UnexpectedHttpStatus`) after exactly one attempt, attaching the full
one-attempt history, whatever the remaining retry budget. -/
theorem claim_C2 (p : String → Option String) (responses : Nat → Response)
    (hostname : String) (retries : Nat)
    (h : (responses 0).statusCode = 429) :
    registerEndpoint p responses hostname retries =
      .error (.endpointRegistrationError (.loginRateLimitExceeded
        [{ req := { hostname := hostname }, res := responses 0 }])) ∧
    registerEndpointTries p responses hostname retries =
      [{ req := { hostname := hostname }, res := responses 0 }] := by
  constructor <;>
    simp [registerEndpoint, registerEndpointTries, registerEndpointGo, h]

/-- C2 witness: with retry budget 2 and a 429 first response the run fails
rate-limited after exactly one attempt, not three. -/
theorem claim_C2_witness :
    registerEndpoint demoParseUriHost (fun _ => res429demo) "hostA" 2 =
      .error (.endpointRegistrationError (.loginRateLimitExceeded
        [{ req := { hostname := "hostA" }, res := res429demo }])) ∧
    registerEndpointTries demoParseUriHost (fun _ => res429demo) "hostA" 2 =
      [{ req := { hostname := "hostA" }, res := res429demo }] :=
  claim_C2 demoParseUriHost (fun _ => res429demo) "hostA" 2 (by rfl)

/-- C3: `registerEndpoint` performs at most `retries + 1` attempts; an
`EndpointRedirectionsLimit` failure always attaches exactly the full history
of `retries + 1` attempts; and when every attempt takes the redirect branch
(the loop completes all its iterations without reaching the success path)
the run does fail as `EndpointRedirectionsLimit` with that full history. -/
theorem claim_C3 (p : String → Option String) (responses : Nat → Response)
    (hostname : String) (retries : Nat) :
    (registerEndpointTries p responses hostname retries).length ≤ retries + 1 ∧
    (∀ t, registerEndpoint p responses hostname retries =
        .error (.endpointRegistrationError (.endpointRedirectionsLimit t)) →
      t = registerEndpointTries p responses hostname retries ∧
      t.length = retries + 1) ∧
    ((∀ a ∈ registerEndpointTries p responses hostname retries,
        redirectsAttempt p a = true) →
      registerEndpoint p responses hostname retries =
        .error (.endpointRegistrationError (.endpointRedirectionsLimit
          (registerEndpointTries p responses hostname retries))) ∧
      (registerEndpointTries p responses hostname retries).length = retries + 1) := by
  refine ⟨?_, ?_, ?_⟩
  · have h := registerEndpointGo_length_le p responses (retries + 1) 0 hostname []
    simpa [registerEndpointTries] using h
  · intro t h
    have h2 := registerEndpointGo_exhausted_full p responses (retries + 1) 0 hostname [] t
      (by simpa [registerEndpoint] using h)
    simpa [registerEndpointTries] using h2
  · intro H
    have h2 := registerEndpointGo_all_redirect p responses (retries + 1) 0 hostname []
      (by simpa [registerEndpointTries] using H)
    simpa [registerEndpoint, registerEndpointTries] using h2

/-- C3 witness (Scenario D): retry budget 0 and a first response that is a
301 redirect to a different host exhausts the loop after exactly one
attempt. -/
theorem claim_C3_witness :
    registerEndpoint demoParseUriHost (fun _ => res301B) "hostA" 0 =
      .error (.endpointRegistrationError (.endpointRedirectionsLimit
        (registerEndpointTries demoParseUriHost (fun _ => res301B) "hostA" 0))) ∧
    (registerEndpointTries demoParseUriHost (fun _ => res301B) "hostA" 0).length =
      0 + 1 :=
  (claim_C3 demoParseUriHost (fun _ => res301B) "hostA" 0).2.2 (by decide)

/-- C4: a response with expected status whose `Location` host differs from
the current hostname makes the loop continue at that host with one unit of
the single shared budget consumed (the remaining iteration count drops from
`fuel + 1` to `fuel`); concretely, with retry budget 2, a 301 redirect to
`hostB` followed by a 201 success at `hostB` yields the token for `hostB`
after exactly two attempts. -/
theorem claim_C4 :
    (∀ (p : String → Option String) (responses : Nat → Response)
        (i : Nat) (hostname : String) (fuel : Nat) (tries : List Attempt)
        (loc host : String),
      (responses i).statusCode ∈ expectedStatusCodes →
      (responses i).location = some loc →
      p loc = some host →
      host ≠ hostname →
      registerEndpointGo p responses i hostname (fuel + 1) tries =
        registerEndpointGo p responses (i + 1) host fuel
          (tries ++ [{ req := { hostname := hostname }, res := responses i }])) ∧
    registerEndpoint demoParseUriHost respSeqRedirect "hostA" 2 =
      .ok { value := "abc"
            expirationDate := some 1000000
            endpointId := "{e1}"
            raw := "registrationToken=abc; expires=1000; endpointId={e1}"
            host := "hostB" } ∧
    (registerEndpointTries demoParseUriHost respSeqRedirect "hostA" 2).length = 2 := by
  refine ⟨?_, by rfl, by rfl⟩
  intro p responses i hostname fuel tries loc host hmem hloc hhost hne
  have h429 : ¬ (responses i).statusCode = 429 := by
    simp only [expectedStatusCodes, List.mem_cons, List.not_mem_nil, or_false] at hmem
    rcases hmem with h | h <;> omega
  simp [registerEndpointGo, h429, hmem, hloc, hhost, hne]

/-- C4 witness: one concrete redirect step from `hostA` to `hostB`
consuming one unit of fuel. -/
theorem claim_C4_witness :
    registerEndpointGo demoParseUriHost respSeqRedirect 0 "hostA" 3 [] =
      registerEndpointGo demoParseUriHost respSeqRedirect 1 "hostB" 2
        [{ req := { hostname := "hostA" }, res := res301B }] := by
  have h := claim_C4.1 demoParseUriHost respSeqRedirect 0 "hostA" 2 []
    "https://hostB/v1" "hostB" (by decide) (by rfl) (by rfl) (by decide)
  simpa using h

/-- C5 (evaluating the code at the failing input): after a redirect to
`hostB` followed by a 500, the terminal `UnexpectedHttpStatusError` payload
carries only the last request and response — its `triesOf` is `none` — even
though the run accumulated a two-attempt history. -/
theorem claim_C5 :
    registerEndpoint demoParseUriHost respSeqRedirect500 "hostA" 1 =
      .error (.endpointRegistrationError (.unexpectedHttpStatus res500demo
        [201, 301] { hostname := "hostB" })) ∧
    RegError.triesOf (.endpointRegistrationError (.unexpectedHttpStatus res500demo
        [201, 301] { hostname := "hostB" })) = none ∧
    registerEndpointTries demoParseUriHost respSeqRedirect500 "hostA" 1 =
      [{ req := { hostname := "hostA" }, res := res301B },
       { req := { hostname := "hostB" }, res := res500demo }] :=
  ⟨by rfl, by rfl, by rfl⟩

/-- C6 counterexample: at a 301 whose `Location` URI has no host component
the thrown error is the bare `ParseError` incident, not the composite
`EndpointRegistrationError` the claim requires every terminal failure to
surface as. -/
theorem claim_C6_counterexample :
    registerEndpoint demoParseUriHost (fun _ => resNoHost) "hostA" 2 =
      .error (.parseError "Expected location to define host") ∧
    RegError.isComposite (.parseError "Expected location to define host") = false :=
  ⟨by rfl, by rfl⟩

/-- C6 (amended): a response with status in {201, 301} whose `Location`
value parses to a URI without a host makes `registerEndpoint` fail as the
`ParseError` ("Expected location to define host"); this failure is thrown
bare — it is not wrapped in the composite `EndpointRegistrationError`. -/
theorem claim_C6 (p : String → Option String) (responses : Nat → Response)
    (i : Nat) (hostname : String) (fuel : Nat) (tries : List Attempt)
    (loc : String)
    (hmem : (responses i).statusCode ∈ expectedStatusCodes)
    (hloc : (responses i).location = some loc)
    (hhost : p loc = none) :
    registerEndpointGo p responses i hostname (fuel + 1) tries =
      (.error (.parseError "Expected location to define host"),
        tries ++ [{ req := { hostname := hostname }, res := responses i }]) ∧
    RegError.isComposite (.parseError "Expected location to define host") = false := by
  have h429 : ¬ (responses i).statusCode = 429 := by
    simp only [expectedStatusCodes, List.mem_cons, List.not_mem_nil, or_false] at hmem
    rcases hmem with h | h <;> omega
  exact ⟨by simp [registerEndpointGo, h429, hmem, hloc, hhost], by rfl⟩

/-- C6 witness: the concrete no-host location `relative/path` at a 301. -/
theorem claim_C6_witness :
    registerEndpointGo demoParseUriHost (fun _ => resNoHost) 0 "hostA" 3 [] =
      (.error (.parseError "Expected location to define host"),
        [{ req := { hostname := "hostA" }, res := resNoHost }]) ∧
    RegError.isComposite (.parseError "Expected location to define host") = false := by
  have h := claim_C6 demoParseUriHost (fun _ => resNoHost) 0 "hostA" 2 []
    "relative/path" (by decide) (by rfl) (by rfl)
  simpa using h

/-- C7: a response whose status is neither 429 nor in {201, 301} makes
`registerEndpoint` fail as `UnexpectedHttpStatus`, attaching the expected
status set {201, 301}, the offending response (hence the actual status) and
the request. -/
theorem claim_C7 (p : String → Option String) (responses : Nat → Response)
    (i : Nat) (hostname : String) (fuel : Nat) (tries : List Attempt)
    (h429 : (responses i).statusCode ≠ 429)
    (hmem : (responses i).statusCode ∉ expectedStatusCodes) :
    registerEndpointGo p responses i hostname (fuel + 1) tries =
      (.error (.endpointRegistrationError (.unexpectedHttpStatus (responses i)
        [201, 301] { hostname := hostname })),
        tries ++ [{ req := { hostname := hostname }, res := responses i }]) := by
  have hgo : registerEndpointGo p responses i hostname (fuel + 1) tries =
      (.error (.endpointRegistrationError (.unexpectedHttpStatus (responses i)
        expectedStatusCodes { hostname := hostname })),
        tries ++ [{ req := { hostname := hostname }, res := responses i }]) := by
    simp [registerEndpointGo, h429, hmem]
  rw [hgo]
  rfl

/-- C7 witness: a 500 response is classified `UnexpectedHttpStatus` with
expected set {201, 301}. -/
theorem claim_C7_witness :
    registerEndpointGo demoParseUriHost (fun _ => res500demo) 0 "hostA" 3 [] =
      (.error (.endpointRegistrationError (.unexpectedHttpStatus res500demo
        [201, 301] { hostname := "hostA" })),
        [{ req := { hostname := "hostA" }, res := res500demo }]) := by
  have h := claim_C7 demoParseUriHost (fun _ => res500demo) 0 "hostA" 2 []
    (by decide) (by decide)
  simpa using h

/-- C8: missing headers fail as `MissingHeader` parameterized by the header
name: a response with status in {201, 301} (201 included) lacking a
`Location` header fails as `MissingHeader("Location")`, and a conclusive
attempt (status 201, `Location` host equal to the current hostname) lacking
a `Set-Registrationtoken` header fails as
`MissingHeader("Set-Registrationtoken")`. -/
theorem claim_C8 :
    (∀ (p : String → Option String) (responses : Nat → Response)
        (i : Nat) (hostname : String) (fuel : Nat) (tries : List Attempt),
      (responses i).statusCode ∈ expectedStatusCodes →
      (responses i).location = none →
      registerEndpointGo p responses i hostname (fuel + 1) tries =
        (.error (.endpointRegistrationError (.missingHeader (responses i)
          "Location" { hostname := hostname })),
          tries ++ [{ req := { hostname := hostname }, res := responses i }])) ∧
    (∀ (p : String → Option String) (responses : Nat → Response)
        (i : Nat) (hostname : String) (fuel : Nat) (tries : List Attempt)
        (loc : String),
      (responses i).statusCode = 201 →
      (responses i).location = some loc →
      p loc = some hostname →
      (responses i).setRegistrationToken = none →
      registerEndpointGo p responses i hostname (fuel + 1) tries =
        (.error (.endpointRegistrationError (.missingHeader (responses i)
          "Set-Registrationtoken" { hostname := hostname })),
          tries ++ [{ req := { hostname := hostname }, res := responses i }])) := by
  constructor
  · intro p responses i hostname fuel tries hmem hloc
    have h429 : ¬ (responses i).statusCode = 429 := by
      simp only [expectedStatusCodes, List.mem_cons, List.not_mem_nil, or_false] at hmem
      rcases hmem with h | h <;> omega
    simp [registerEndpointGo, h429, hmem, hloc]
  · intro p responses i hostname fuel tries loc hstatus hloc hhost hreg
    simp [registerEndpointGo, hstatus, hloc, hhost, hreg, expectedStatusCodes]

/-- C8 witness: a 201 without `Location` fails `MissingHeader("Location")`,
and a 201 with matching host but no token header fails
`MissingHeader("Set-Registrationtoken")` (Scenario E). -/
theorem claim_C8_witness :
    registerEndpointGo demoParseUriHost (fun _ => resNoLocation) 0 "hostA" 3 [] =
      (.error (.endpointRegistrationError (.missingHeader resNoLocation
        "Location" { hostname := "hostA" })),
        [{ req := { hostname := "hostA" }, res := resNoLocation }]) ∧
    registerEndpointGo demoParseUriHost (fun _ => resNoToken) 0 "hostA" 3 [] =
      (.error (.endpointRegistrationError (.missingHeader resNoToken
        "Set-Registrationtoken" { hostname := "hostA" })),
        [{ req := { hostname := "hostA" }, res := resNoToken }]) := by
  constructor
  · have h := claim_C8.1 demoParseUriHost (fun _ => resNoLocation) 0 "hostA" 2 []
      (by decide) (by rfl)
    simpa using h
  · have h := claim_C8.2 demoParseUriHost (fun _ => resNoToken) 0 "hostA" 2 []
      "https://hostA/v1" (by rfl) (by rfl) (by rfl) (by rfl)
    simpa using h

/-- C9 counterexample: the header `registrationToken=; expires=1000;
endpointId=x` parses successfully to a token whose `value` is the empty
string, refuting the invariant that `value` is always non-empty. -/
theorem claim_C9_counterexample :
    readSetRegistrationTokenHeader "h"
        "registrationToken=; expires=1000; endpointId=x" =
      .ok { value := ""
            expirationDate := some 1000000
            endpointId := "x"
            raw := "registrationToken=; expires=1000; endpointId=x"
            host := "h" } ∧
    ¬ (∀ t, readSetRegistrationTokenHeader "h"
          "registrationToken=; expires=1000; endpointId=x" = .ok t →
        t.value ≠ "") :=
  ⟨by rfl, fun H => H _ (by rfl) rfl⟩

/-- C9 (amended): every token returned by the parser has host equal to the
hostname argument, raw equal to the header, value and endpointId exactly the
parsed header values (which may be empty — non-emptiness is not enforced),
and expiration instant `1000 * parseInt(expires, 10)` ms after the epoch; at
the protocol level, a returned token's host is the hostname of the attempt
that produced it (the last recorded attempt). -/
theorem claim_C9 :
    (∀ (hostname header : String) (t : RegistrationToken),
      readSetRegistrationTokenHeader hostname header = .ok t →
      t.host = hostname ∧ t.raw = header ∧
      getParam (parseHeaderParams header) "registrationToken" = some t.value ∧
      getParam (parseHeaderParams header) "endpointId" = some t.endpointId ∧
      ∃ e, getParam (parseHeaderParams header) "expires" = some e ∧
        t.expirationDate = (parseIntBase10 e).map fun n => 1000 * n) ∧
    (∀ (p : String → Option String) (responses : Nat → Response)
        (hostname : String) (retries : Nat) (t : RegistrationToken),
      registerEndpoint p responses hostname retries = .ok t →
      ((registerEndpointTries p responses hostname retries).getLast?).map
          (fun a => a.req.hostname) = some t.host) := by
  constructor
  · intro hostname header t h
    obtain ⟨v, e, eid, hv, he, heid, ht⟩ :=
      (readSetRegistrationTokenHeader_ok_iff hostname header t).mp h
    subst ht
    exact ⟨rfl, rfl, hv, heid, e, he, rfl⟩
  · intro p responses hostname retries t h
    have h2 := registerEndpointGo_ok_host p responses (retries + 1) 0 hostname [] t
      (by simpa [registerEndpoint] using h)
    simpa [registerEndpointTries] using h2

/-- C9 witness: the Scenario A token for `requestedHost`. -/
theorem claim_C9_witness :
    ({ value := "abc"
       expirationDate := some 1000000
       endpointId := "{e1}"
       raw := "registrationToken=abc; expires=1000; endpointId={e1}"
       host := "requestedHost" } : RegistrationToken).host = "requestedHost" ∧
    ({ value := "abc"
       expirationDate := some 1000000
       endpointId := "{e1}"
       raw := "registrationToken=abc; expires=1000; endpointId={e1}"
       host := "requestedHost" } : RegistrationToken).raw =
      "registrationToken=abc; expires=1000; endpointId={e1}" ∧
    getParam (parseHeaderParams "registrationToken=abc; expires=1000; endpointId={e1}")
        "registrationToken" = some "abc" ∧
    getParam (parseHeaderParams "registrationToken=abc; expires=1000; endpointId={e1}")
        "endpointId" = some "{e1}" ∧
    ∃ e, getParam (parseHeaderParams
        "registrationToken=abc; expires=1000; endpointId={e1}") "expires" = some e ∧
      (some 1000000 : Option Int) = (parseIntBase10 e).map fun n => 1000 * n :=
  claim_C9.1 "requestedHost" "registrationToken=abc; expires=1000; endpointId={e1}"
    { value := "abc"
      expirationDate := some 1000000
      endpointId := "{e1}"
      raw := "registrationToken=abc; expires=1000; endpointId={e1}"
      host := "requestedHost" } (by rfl)

/-- C10: whenever the parsed header contains all three keys the parser
returns a token and never fails, even for non-numeric or partially numeric
`expires` values: the expiration instant comes from the lenient base-10
parse (`"1000x"` behaves as 1000; a value with no numeric prefix yields an
invalid instant, `none`, rather than an error). -/
theorem claim_C10 :
    (∀ (hostname header v e eid : String),
      getParam (parseHeaderParams header) "registrationToken" = some v →
      getParam (parseHeaderParams header) "expires" = some e →
      getParam (parseHeaderParams header) "endpointId" = some eid →
      ∃ t, readSetRegistrationTokenHeader hostname header = .ok t ∧
        t.expirationDate = (parseIntBase10 e).map fun n => 1000 * n) ∧
    parseIntBase10 "1000x" = some 1000 ∧
    readSetRegistrationTokenHeader "h"
        "registrationToken=v; expires=1000x; endpointId=i" =
      .ok { value := "v"
            expirationDate := some 1000000
            endpointId := "i"
            raw := "registrationToken=v; expires=1000x; endpointId=i"
            host := "h" } ∧
    parseIntBase10 "oops" = none ∧
    readSetRegistrationTokenHeader "h"
        "registrationToken=v; expires=oops; endpointId=i" =
      .ok { value := "v"
            expirationDate := none
            endpointId := "i"
            raw := "registrationToken=v; expires=oops; endpointId=i"
            host := "h" } := by
  refine ⟨?_, by rfl, by rfl, by rfl, by rfl⟩
  intro hostname header v e eid hv he heid
  exact ⟨_, (readSetRegistrationTokenHeader_ok_iff hostname header _).mpr
    ⟨v, e, eid, hv, he, heid, rfl⟩, rfl⟩

/-- C10 witness: the three keys of Scenario A's header are present, so the
parse succeeds with expiration from the lenient integer parse. -/
theorem claim_C10_witness :
    ∃ t, readSetRegistrationTokenHeader "h"
        "registrationToken=abc; expires=1000; endpointId={e1}" = .ok t ∧
      t.expirationDate = (parseIntBase10 "1000").map fun n => 1000 * n :=
  claim_C10.1 "h" "registrationToken=abc; expires=1000; endpointId={e1}"
    "abc" "1000" "{e1}" (by rfl) (by rfl) (by rfl)

end SkypeHttp
